import Mathlib

/-!
Verification of the HLV ability kit (Lightning/Hedera HTLC bridge).

Shallow embedding of the three Vincent abilities in this repository:

* `LightningPayment` — `packages/ability-lightning-payment` (schemas and the
  `vincentAbility` precheck/execute for paying a BOLT11 invoice via NWC,
  plus the exported `verifyPreimage` helper);
* `HederaHtlc` — `packages/ability-hedera-htlc` (precheck/execute that create
  a hash time-locked contract through `createHTLCToken`);
* `LightningInvoice` — `packages/ability-lightning-invoice` (precheck/execute
  that create a Lightning invoice via NWC).

Modelling conventions, used uniformly below:

* Results of external calls (NWC client, JSON-RPC provider, invoice decoder)
  are passed in explicitly as parameters or an environment record; a thrown
  JS exception is an `Except.error` / `Option.none` value.
* Each operation returns, next to its result, the list of external ledger /
  rail calls it performed, so that "does not invoke call X" is provable.
* JS numbers that the zod schemas constrain to integers are `Nat`/`Int`;
  timestamps are `Nat` (milliseconds or seconds as in the source).
* Interpolated error strings are abstracted to symbolic message values that
  carry the interpolated data; the `reason` codes are modelled exactly.
* `keccak256(solidityPack (...))` is idealised as a free constructor
  (collision-resistance), so two packings are equal iff their fields are.
-/

namespace HLV

/-- A character of the class `[0-9a-fA-F]`, as in the source regexes. -/
def isHexChar (c : Char) : Bool :=
  c.isDigit || (('a' ≤ c) && (c ≤ 'f')) || (('A' ≤ c) && (c ≤ 'F'))

/-- Matches `/^[0-9a-f]{64}$/i`: exactly 64 hexadecimal characters. -/
def isHex64 (s : String) : Bool :=
  s.length == 64 && s.toList.all isHexChar

/-- JS `s.startsWith(t)` (also used to model an exact scheme test). -/
def strStarts (t s : String) : Bool :=
  t.toList.isPrefixOf s.toList

/-- JS `s.includes(c)` for a single character. -/
def strContainsChar (s : String) (c : Char) : Bool :=
  s.toList.contains c

namespace LightningPayment

/-- `KNOWN_ERRORS` of `ability-lightning-payment/src/lib/schemas.ts`. -/
inductive LnError
  | INVALID_INVOICE
  | PAYMENT_FAILED
  | INVOICE_EXPIRED
  | AMOUNT_MISMATCH
  | INSUFFICIENT_LIQUIDITY
  | NO_ROUTE_FOUND
deriving DecidableEq, Repr

/-- A decoded BOLT11 invoice as produced by `new Invoice({ pr })` of
`@getalby/lightning-tools`: the fields the ability reads. `satoshi`,
`description` and `expiryDate` may be absent (`undefined`); the source
applies `|| 0` / `|| ''` / `?.getTime() || 0` to them. `expiryDate` is in
milliseconds since the epoch. -/
structure Invoice where
  paymentHash : String
  satoshi : Option Nat
  description : Option String
  expiryDate : Option Nat
deriving DecidableEq, Repr

/-- Payload of `precheckSuccessSchema`. -/
structure PrecheckSuccess where
  invoiceValid : Bool
  paymentHash : String
  amountSat : Nat
  destination : String
  description : String
  expiresAt : Nat
  availableLiquidity : Option Nat
  estimatedFee : Option Nat
deriving DecidableEq, Repr

/-- Symbolic form of the interpolated `error` strings of the precheck's
failure payloads, one constructor per `fail` site, carrying the data the
source interpolates into the message. -/
inductive PrecheckMsg
  | decodeFailed (detail : String)
  | invoiceExpiredAt (expiresAtMs : Nat)
  | amountMismatch (amountSat expectedAmountSat : Nat)
  | amountlessInvoice
  | insufficientLiquidity (requiredSat availableSat : Nat)
deriving DecidableEq, Repr

/-- Outcome of the precheck: `succeed(...)` or `fail({ reason, error })`. -/
inductive PrecheckResult
  | ok (s : PrecheckSuccess)
  | failed (reason : LnError) (error : PrecheckMsg)
deriving DecidableEq, Repr

/-- JS truthiness test `expectedAmountSat && amountSat !== expectedAmountSat`
(`expectedAmountSat` is falsy when absent or `0`). -/
def amountMismatchCheck (expectedAmountSat : Option Nat) (amountSat : Nat) : Bool :=
  match expectedAmountSat with
  | some e => e != 0 && amountSat != e
  | none => false

/-- The `precheck` of the lightning-payment `vincentAbility`.

Inputs: `decoded` is the result of `new Invoice({ pr: paymentRequest })`
(`none` when the decoder throws); `nowMs` is `Date.now()`;
`nwcBalanceSat` is the result of the NWC connect + `getBalance` calls
(`none` when either throws — the source catches that and proceeds without
the liquidity check). `Math.ceil(amountSat * 0.001)` is modelled as exact
ceiling division. -/
def lightningPrecheck (decoded : Option Invoice) (expectedAmountSat : Option Nat)
    (nowMs : Nat) (nwcBalanceSat : Option Nat) : PrecheckResult :=
  match decoded with
  | none => .failed .INVALID_INVOICE (.decodeFailed "Failed to decode Lightning invoice")
  | some invoice =>
    let paymentHash := invoice.paymentHash
    let amountSat := invoice.satoshi.getD 0
    let description := invoice.description.getD ""
    let expiresAt := invoice.expiryDate.getD 0
    if expiresAt ≠ 0 ∧ expiresAt < nowMs then
      .failed .INVOICE_EXPIRED (.invoiceExpiredAt expiresAt)
    else if amountMismatchCheck expectedAmountSat amountSat then
      .failed .AMOUNT_MISMATCH (.amountMismatch amountSat (expectedAmountSat.getD 0))
    else if amountSat = 0 then
      .failed .INVALID_INVOICE .amountlessInvoice
    else
      let estimatedFee := (amountSat + 999) / 1000
      match nwcBalanceSat with
      | some availableLiquidity =>
        if availableLiquidity < amountSat then
          .failed .INSUFFICIENT_LIQUIDITY (.insufficientLiquidity amountSat availableLiquidity)
        else
          .ok { invoiceValid := true, paymentHash, amountSat, destination := "unknown",
                description, expiresAt,
                availableLiquidity := some availableLiquidity,
                estimatedFee := some estimatedFee }
      | none =>
        .ok { invoiceValid := true, paymentHash, amountSat, destination := "unknown",
              description, expiresAt,
              availableLiquidity := none,
              estimatedFee := some estimatedFee }

/-- How the `payInvoice` promise of the NWC manager settles: it resolves
with `{ preimage: response.preimage, amount: 0 }` (the `preimage` field of
the rail's response may be absent), or it rejects. -/
inductive PayEvent
  | response (preimage : Option String)
  | railError (detail : String)
deriving DecidableEq, Repr

/-- Symbolic form of the `error` string of the execute failure payload
(the catch handler formats `Payment execution failed: <inner>`; one
constructor per distinct inner throw site). -/
inductive ExecMsg
  | decodeFailed (detail : String)
  | connectFailed (detail : String)
  | paymentTimeout
  | railError (detail : String)
  | invalidPreimage (preimage : Option String)
deriving DecidableEq, Repr

/-- Payload of `executeSuccessSchema` (the `status` field is the literal
`'SUCCEEDED'`, kept here for fidelity). -/
structure ExecuteSuccess where
  preimage : String
  paymentHash : String
  amountSat : Nat
  feeSat : Nat
  totalSat : Nat
  timestamp : Nat
  status : String
deriving DecidableEq, Repr

/-- Outcome of the execute: `succeed(...)` or `fail({ reason, error,
paymentHash })`. -/
inductive ExecuteResult
  | ok (s : ExecuteSuccess)
  | failed (reason : LnError) (error : ExecMsg) (paymentHash : Option String)
deriving DecidableEq, Repr

/-- The zod `timeoutSeconds` field: `.positive().int().default(60)` — a
missing value parses to `60` before the ability body ever runs. -/
def effectiveTimeoutSeconds (suppliedTimeoutSeconds : Option Nat) : Nat :=
  suppliedTimeoutSeconds.getD 60

/-- The `execute` of the lightning-payment `vincentAbility`.

Inputs: `decoded` as in `lightningPrecheck`; `suppliedTimeoutSeconds` is the
caller's `timeoutSeconds` before zod applies its default; `connectError` is
`some detail` when `nwcManager.connect` throws; `payEvent`/`payDelayMs`
describe how and after how many milliseconds the `payInvoice` promise
settles; `resultNowMs` is `Date.now()` at result construction.

The `Promise.race` against `setTimeout(..., timeoutSeconds * 1000)` is
modelled as: the timer wins iff `timeoutSeconds * 1000 ≤ payDelayMs` (an
exact tie goes to the timer; the claims below never depend on the tie).
The race only runs under `if (timeoutSeconds)`, i.e. when the parsed value
is nonzero. Note that no `sha256(preimage)` comparison occurs anywhere:
the source states "In production, you'd want to verify SHA256(preimage)
=== paymentHash / For now, we trust the NWC response". -/
def lightningExecute (decoded : Option Invoice) (suppliedTimeoutSeconds : Option Nat)
    (connectError : Option String) (payEvent : PayEvent) (payDelayMs : Nat)
    (resultNowMs : Nat) : ExecuteResult :=
  -- the catch handler recovers the payment hash by re-decoding the request
  let catchHash := decoded.map Invoice.paymentHash
  match decoded with
  | none => .failed .PAYMENT_FAILED (.decodeFailed "Failed to decode Lightning invoice") none
  | some invoice =>
    let paymentHash := invoice.paymentHash
    let expectedAmountSat := invoice.satoshi.getD 0
    match connectError with
    | some detail => .failed .PAYMENT_FAILED (.connectFailed detail) catchHash
    | none =>
      let timeoutSeconds := effectiveTimeoutSeconds suppliedTimeoutSeconds
      if timeoutSeconds ≠ 0 ∧ timeoutSeconds * 1000 ≤ payDelayMs then
        .failed .PAYMENT_FAILED .paymentTimeout catchHash
      else
        match payEvent with
        | .railError detail => .failed .PAYMENT_FAILED (.railError detail) catchHash
        | .response preimageField =>
          match preimageField with
          | none => .failed .PAYMENT_FAILED (.invalidPreimage none) catchHash
          | some preimage =>
            -- `if (!preimage || preimage.length !== 64) throw ...`
            if preimage = "" ∨ preimage.length ≠ 64 then
              .failed .PAYMENT_FAILED (.invalidPreimage (some preimage)) catchHash
            else
              -- no hash verification here (see the doc comment above)
              let railAmount : Nat := 0  -- NWCConnectionManager.payInvoice returns amount 0
              let actualAmountSat := if railAmount ≠ 0 then railAmount else expectedAmountSat
              let feeSat :=
                if expectedAmountSat < actualAmountSat then actualAmountSat - expectedAmountSat
                else 0
              .ok { preimage, paymentHash,
                    amountSat := expectedAmountSat, feeSat,
                    totalSat := actualAmountSat,
                    timestamp := resultNowMs, status := "SUCCEEDED" }

/-- The exported helper `verifyPreimage(preimage, expectedHash)` of
`vincent-ability.ts`: a length test followed by `/^[0-9a-f]{64}$/i` tests
of both arguments — no hash is computed. -/
def verifyPreimage (preimage expectedHash : String) : Bool :=
  if preimage.length ≠ 64 ∨ expectedHash.length ≠ 64 then
    false
  else
    isHex64 preimage && isHex64 expectedHash

end LightningPayment

/-- Decidable equality for `Except`, needed by the environment records. -/
instance {ε α : Type} [DecidableEq ε] [DecidableEq α] : DecidableEq (Except ε α) := fun a b =>
  match a, b with
  | .error e₁, .error e₂ =>
    if h : e₁ = e₂ then .isTrue (by rw [h]) else .isFalse (by simp [h])
  | .error _, .ok _ => .isFalse (by simp)
  | .ok _, .error _ => .isFalse (by simp)
  | .ok a₁, .ok a₂ =>
    if h : a₁ = a₂ then .isTrue (by rw [h]) else .isFalse (by simp [h])

namespace HederaHtlc

/-- `KNOWN_ERRORS` of the hedera-htlc ability's schemas. -/
inductive HtlcError
  | INSUFFICIENT_BALANCE
  | INSUFFICIENT_ALLOWANCE
  | INVALID_PAYMENT_HASH
  | INVALID_TIMELOCK
  | TRANSACTION_FAILED
  | CONTRACT_ERROR
deriving DecidableEq, Repr

/-- The ability parameters (after zod parsing): `paymentHash` is constrained
by `/^0x[a-fA-F0-9]{64}$/` at the schema level, `amount` is a plain
wei-amount string, `timelock` a positive integer Unix timestamp in seconds,
`chainId` an integer. -/
structure AbilityParams where
  paymentHash : String
  amount : String
  tokenAddress : String
  htlcContractAddress : String
  timelock : Nat
  rpcUrl : String
  chainId : Int
deriving DecidableEq, Repr

/-- `getHederaNetwork(chainId)` of `hedera-config.ts`: returns the network
name for 295/296/297 and throws otherwise (`none`). -/
def getHederaNetwork (chainId : Int) : Option String :=
  if chainId = 295 then some "Hedera Mainnet"
  else if chainId = 296 then some "Hedera Testnet"
  else if chainId = 297 then some "Hedera Previewnet"
  else none

/-- `ethers.BigNumber.from` on a string: accepts a (nonempty) decimal
numeral and throws on anything else (`none`); written structurally over the
character list so that concrete runs reduce in the kernel. -/
def decNat? (s : String) : Option Nat :=
  let ds := s.toList
  if ds ≠ [] ∧ ds.all Char.isDigit then
    some (ds.foldl (fun n c => n * 10 + (c.toNat - 48)) 0)
  else none

/-- The precheck's regex `/^0x[a-fA-F0-9]{64}$/` on the payment hash. -/
def isBytes32Hex (s : String) : Bool :=
  match s.toList with
  | '0' :: 'x' :: rest => rest.length == 64 && rest.all isHexChar
  | _ => false

/-- An `0x`-prefixed 20-byte address, as the ABI encoder requires. -/
def isAddressHex (s : String) : Bool :=
  match s.toList with
  | '0' :: 'x' :: rest => rest.length == 40 && rest.all isHexChar
  | _ => false

/-- The external calls the two operations can make against the token /
HTLC contracts and the JSON-RPC provider. `createHTLCToken` is the
state-changing ledger call (submitted via `laUtils` `contractCall`);
everything else is read-only. -/
inductive LedgerCall
  | balanceOf
  | allowance
  | estimateGasCreate
  | getTransactionCount
  | getGasPrice
  | estimateGasTx
  | createHTLCToken
  | waitForTransaction
deriving DecidableEq, Repr

/-- Symbolic form of the failure payloads' `error` strings. -/
inductive HtlcMsg
  | invalidChainId (chainId : Int)
  | invalidPaymentHash
  | invalidTimelock (timelock nowSec : Nat)
  | insufficientBalance (balance : Nat) (amount : String)
  | transactionFailedOnChain
  | thrown (detail : String)
deriving DecidableEq, Repr

/-- Payload of the precheck success schema (`availableBalance` and
`estimatedGas` are string-encoded numbers in the source; kept as `Nat`). -/
structure PrecheckSuccess where
  hasAllowance : Bool
  hasBalance : Bool
  availableBalance : Nat
  estimatedGas : Nat
deriving DecidableEq, Repr

inductive PrecheckResult
  | ok (s : PrecheckSuccess)
  | failed (reason : HtlcError) (error : HtlcMsg)
deriving DecidableEq, Repr

/-- Results of the external reads the precheck performs. -/
structure PrecheckEnv where
  balanceOf : Nat
  allowance : Nat
  estimateGasCreate : Except String Nat
deriving DecidableEq, Repr

/-- The `precheck` of the hedera-htlc `vincentAbility`, with the list of
ledger calls it performed. `nowSec` is `Math.floor(Date.now() / 1000)`;
`BigNumber.from(amount)` is modelled by `decNat?` (it throws on a
non-numeric string, which the outer catch maps to `CONTRACT_ERROR`). -/
def htlcPrecheck (p : AbilityParams) (nowSec : Nat) (env : PrecheckEnv) :
    PrecheckResult × List LedgerCall :=
  if (getHederaNetwork p.chainId).isNone then
    (.failed .CONTRACT_ERROR (.invalidChainId p.chainId), [])
  else if ¬ isBytes32Hex p.paymentHash then
    (.failed .INVALID_PAYMENT_HASH .invalidPaymentHash, [])
  else if p.timelock ≤ nowSec then
    (.failed .INVALID_TIMELOCK (.invalidTimelock p.timelock nowSec), [])
  else
    -- `balanceOf` runs before `BigNumber.from(amount)` can throw
    match decNat? p.amount with
    | none => (.failed .CONTRACT_ERROR (.thrown "invalid BigNumber string"), [.balanceOf])
    | some amountWei =>
      if env.balanceOf < amountWei then
        (.failed .INSUFFICIENT_BALANCE (.insufficientBalance env.balanceOf p.amount),
         [.balanceOf])
      else
        let hasAllowance := amountWei ≤ env.allowance
        match env.estimateGasCreate with
        | .error detail =>
          (.failed .CONTRACT_ERROR (.thrown detail),
           [.balanceOf, .allowance, .estimateGasCreate])
        | .ok gas =>
          (.ok { hasAllowance, hasBalance := true,
                 availableBalance := env.balanceOf, estimatedGas := gas },
           [.balanceOf, .allowance, .estimateGasCreate])

/-- `keccak256(solidityPack(['address','address','uint256','bytes32',
'uint256','uint256'], [...]))`, idealised as a free constructor: the hash of
distinct packings is distinct (collision-resistance). The last field is the
timestamp that went into the packing. -/
inductive ContractId
  | keccakPack (sender tokenAddress : String) (amountWei : Nat) (paymentHash : String)
      (timelock : Nat) (timestampSec : Nat)
deriving DecidableEq, Repr

/-- A transaction receipt as returned by `provider.waitForTransaction`;
`eventContractId` is the `contractId` carried by the `HTLCCreated`
notification in the receipt's logs (the identifier the ledger assigned). -/
structure Receipt where
  status : Nat
  blockNumber : Nat
  eventContractId : ContractId
deriving DecidableEq, Repr

/-- Payload of the execute success schema. -/
structure ExecuteSuccess where
  contractId : ContractId
  txHash : String
  paymentHash : String
  amount : String
  timelock : Nat
  blockNumber : Nat
deriving DecidableEq, Repr

inductive ExecuteResult
  | ok (s : ExecuteSuccess)
  | failed (reason : HtlcError) (error : HtlcMsg)
deriving DecidableEq, Repr

/-- Results of the external calls the execute performs. `receipt = none`
models `waitForTransaction` resolving to `null`. -/
structure ExecuteEnv where
  nonce : Except String Nat
  gasPrice : Except String Nat
  estimateGasTx : Except String Nat
  contractCall : Except String String
  receipt : Option Receipt
deriving DecidableEq, Repr

/-- The `execute` of the hedera-htlc `vincentAbility`, with the list of
ledger calls performed. `userAddress` comes from
`delegation.delegatorPkpInfo`; `nowSec` is the local clock reading
`Math.floor(Date.now() / 1000)` taken when the contract id is computed.

Note: there is no timelock validation here, and the returned `contractId`
is computed locally from the parameters and the local clock — nothing is
read out of the receipt's logs. -/
def htlcExecute (p : AbilityParams) (userAddress : String) (nowSec : Nat)
    (env : ExecuteEnv) : ExecuteResult × List LedgerCall :=
  -- `encodeFunctionData('createHTLCToken', ...)` throws unless the
  -- arguments fit the ABI types
  match decNat? p.amount with
  | none => (.failed .TRANSACTION_FAILED (.thrown "encode error"), [])
  | some amountWei =>
    if ¬ (isBytes32Hex p.paymentHash ∧ isAddressHex p.tokenAddress) then
      (.failed .TRANSACTION_FAILED (.thrown "encode error"), [])
    else
      match env.nonce with
      | .error detail =>
        (.failed .TRANSACTION_FAILED (.thrown detail), [.getTransactionCount])
      | .ok _ =>
        match env.gasPrice with
        | .error detail =>
          (.failed .TRANSACTION_FAILED (.thrown detail),
           [.getTransactionCount, .getGasPrice])
        | .ok _ =>
          match env.estimateGasTx with
          | .error detail =>
            (.failed .TRANSACTION_FAILED (.thrown detail),
             [.getTransactionCount, .getGasPrice, .estimateGasTx])
          | .ok _ =>
            match env.contractCall with
            | .error detail =>
              (.failed .TRANSACTION_FAILED (.thrown detail),
               [.getTransactionCount, .getGasPrice, .estimateGasTx, .createHTLCToken])
            | .ok txHash =>
              -- contract id computed from the LOCAL clock, not the ledger
              let contractId := ContractId.keccakPack userAddress p.tokenAddress
                amountWei p.paymentHash p.timelock nowSec
              let fullTrace : List LedgerCall :=
                [.getTransactionCount, .getGasPrice, .estimateGasTx,
                 .createHTLCToken, .waitForTransaction]
              match env.receipt with
              | none =>
                (.failed .TRANSACTION_FAILED .transactionFailedOnChain, fullTrace)
              | some receipt =>
                if receipt.status = 0 then
                  (.failed .TRANSACTION_FAILED .transactionFailedOnChain, fullTrace)
                else
                  (.ok { contractId, txHash, paymentHash := p.paymentHash,
                         amount := p.amount, timelock := p.timelock,
                         blockNumber := receipt.blockNumber },
                   fullTrace)

end HederaHtlc

namespace LightningInvoice

/-- `KNOWN_ERRORS` of the lightning-invoice ability's schemas. -/
inductive InvError
  | NWC_CONNECTION_FAILED
  | INVALID_AMOUNT
  | INVOICE_CREATION_FAILED
  | NWC_NOT_SUPPORTED
  | LIQUIDITY_INSUFFICIENT
deriving DecidableEq, Repr

/-- Payload of the precheck success schema. -/
structure PrecheckSuccess where
  amountSat : Int
  estimatedFee : Option Int
  canReceive : Bool
deriving DecidableEq, Repr

inductive PrecheckResult
  | ok (s : PrecheckSuccess)
  | failed (reason : InvError) (error : String)
deriving DecidableEq, Repr

/-- External calls the invoice ability can make. -/
inductive ExtCall
  | nwcGetInfo
  | lnAddressFetch
  | lnRequestInvoice
  | nwcMakeInvoice
deriving DecidableEq, Repr

/-- The `precheck` of the lightning-invoice `vincentAbility`, with its
(always empty) list of external calls: the body is three local tests and a
`succeed` — it never touches the payment rail. Amount and expiry are kept
as `Int` since the spec tests drive the precheck with raw (unparsed)
values such as `-100`. -/
def invoicePrecheck (amountSat : Int) (nwcUri : String) (expirySec : Int) :
    PrecheckResult × List ExtCall :=
  if amountSat ≤ 0 then
    (.failed .INVALID_AMOUNT "Amount must be greater than 0", [])
  else if ¬ strStarts "nostr+walletconnect://" nwcUri then
    (.failed .NWC_CONNECTION_FAILED
      "Invalid NWC URI format. Must start with nostr+walletconnect://", [])
  else if expirySec < 60 then
    (.failed .INVALID_AMOUNT "Expiry must be at least 60 seconds", [])
  else
    (.ok { amountSat, canReceive := true, estimatedFee := some 0 }, [])

/-- What the execute reads off `new URL(nwcUri)`: `protocol` (with trailing
colon), `hostname`, `pathname`, and the query pairs. -/
structure ParsedUrl where
  protocol : String
  hostname : String
  pathname : String
  query : List (String × String)
deriving DecidableEq, Repr

/-- The input split at the first occurrence of `c`: the part before, and
(`some`) the part after when `c` occurs. -/
def breakFirst (c : Char) : List Char → List Char × Option (List Char)
  | [] => ([], none)
  | x :: xs =>
    if x = c then ([], some xs)
    else
      let r := breakFirst c xs
      (x :: r.1, r.2)

/-- Split at every occurrence of `c`. -/
def splitOnChar (c : Char) : List Char → List (List Char)
  | [] => [[]]
  | x :: xs =>
    let r := splitOnChar c xs
    if x = c then [] :: r
    else
      match r with
      | [] => [[x]]
      | y :: ys => (x :: y) :: ys

/-- A character allowed in a URI scheme. -/
def isSchemeChar (c : Char) : Bool :=
  c.isAlphanum || c = '+' || c = '-' || c = '.'

/-- The WHATWG `new URL(s)` constructor, restricted to the pieces the
ability reads: the scheme up to the first `:` (must start with a letter;
`none` models the constructor throwing), an optional `//host/path`
authority, and the query after the first `?` split on `&`/first `=`.
Percent-decoding is not modelled (no input below uses an escape). -/
def parseUrl (s : String) : Option ParsedUrl :=
  let br := breakFirst ':' s.toList
  match br.2 with
  | none => none
  | some rest =>
    let schemeCs := br.1
    if schemeCs = [] ∨ ¬ schemeCs.all isSchemeChar ∨
        ¬ (schemeCs.head?.getD ' ').isAlpha then
      none
    else
      let bq := breakFirst '?' rest
      let queryPairs :=
        match bq.2 with
        | none => []
        | some q =>
          (splitOnChar '&' q).map fun kv =>
            let be := breakFirst '=' kv
            (String.mk be.1, String.mk (be.2.getD []))
      let hostPath :=
        match bq.1 with
        | '/' :: '/' :: hp =>
          let bs := breakFirst '/' hp
          (String.mk bs.1,
           match bs.2 with
           | none => ""
           | some p => String.mk ('/' :: p))
        | other => ("", String.mk other)
      some { protocol := String.mk (schemeCs ++ [':']),
             hostname := hostPath.1, pathname := hostPath.2,
             query := queryPairs }

/-- `url.searchParams.get(k)`: the first value bound to `k`, else `null`. -/
def getParam (q : List (String × String)) (k : String) : Option String :=
  (q.find? fun p => p.1 == k).map Prod.snd

/-- JS falsiness of a `string | null` value (`null` or the empty string). -/
def falsyStr (o : Option String) : Prop :=
  o = none ∨ o = some ""

instance (o : Option String) : Decidable (falsyStr o) := by
  unfold falsyStr; infer_instance

/-- `nwcUrl.hostname || nwcUrl.pathname.replace('//', '')` of the execute. -/
def walletPubkeyOf (u : ParsedUrl) : String :=
  if u.hostname ≠ "" then u.hostname
  else
    String.mk (match u.pathname.toList with
      | '/' :: '/' :: r => r
      | r => r)

/-- A connection descriptor the execute rejects before contacting the rail:
the URL constructor throws, or the scheme is not `nostr+walletconnect:`,
or the wallet pubkey / `relay` / `secret` parts are missing. -/
def malformedNwcUri (uri : String) : Prop :=
  match parseUrl uri with
  | none => True
  | some u =>
    u.protocol ≠ "nostr+walletconnect:" ∨ walletPubkeyOf u = "" ∨
    falsyStr (getParam u.query "relay") ∨ falsyStr (getParam u.query "secret")

instance (uri : String) : Decidable (malformedNwcUri uri) :=
  match h : parseUrl uri with
  | none => .isTrue (by simp [malformedNwcUri, h])
  | some u =>
    decidable_of_iff
      (u.protocol ≠ "nostr+walletconnect:" ∨ walletPubkeyOf u = "" ∨
        falsyStr (getParam u.query "relay") ∨ falsyStr (getParam u.query "secret"))
      (by simp [malformedNwcUri, h])

/-- `{ alias, pubkey }` from `nwcClient.getInfo()` (both may be absent). -/
structure NwcInfo where
  infoAlias : Option String
  pubkey : Option String
deriving DecidableEq, Repr

/-- Results of the external calls the execute can make. `requestInvoice`
yields `(paymentRequest, paymentHash)` from the Lightning-Address path;
`makeInvoice` yields `(invoice, payment_hash)` from the NWC path. -/
structure ExecuteEnv where
  getInfo : Except String NwcInfo
  lnFetch : Except String Unit
  requestInvoice : Except String (String × String)
  makeInvoice : Except String (String × String)
deriving DecidableEq, Repr

/-- Payload of the execute success schema. -/
structure ExecuteSuccess where
  paymentRequest : String
  paymentHash : String
  amountSat : Int
  description : String
  expiresAt : Int
deriving DecidableEq, Repr

inductive ExecuteResult
  | ok (s : ExecuteSuccess)
  | failed (reason : InvError) (error : String)
deriving DecidableEq, Repr

/-- `description || \x7b...default...\x7d`: the default memo replaces an
absent or empty description (string interpolation of the amount is
abstracted to a fixed tag). -/
def effectiveDescription (description : Option String) : String :=
  match description with
  | some d => if d ≠ "" then d else "HLV Protocol rebalance"
  | none => "HLV Protocol rebalance"

/-- The `execute` of the lightning-invoice `vincentAbility`, with the list
of external calls performed. Every throw inside the body lands in the
single catch handler, which fails with reason `INVOICE_CREATION_FAILED`.
`nowSec` is `Math.floor(Date.now() / 1000)`. -/
def invoiceExecute (amountSat : Int) (description : Option String)
    (expirySec : Int) (nwcUri : String) (nowSec : Int) (env : ExecuteEnv) :
    ExecuteResult × List ExtCall :=
  match parseUrl nwcUri with
  | none => (.failed .INVOICE_CREATION_FAILED "Invalid URL", [])
  | some u =>
    if u.protocol ≠ "nostr+walletconnect:" then
      (.failed .INVOICE_CREATION_FAILED "Invalid NWC URI protocol", [])
    else
      let walletPubkey := walletPubkeyOf u
      let relayUrl := getParam u.query "relay"
      let secret := getParam u.query "secret"
      if walletPubkey = "" ∨ falsyStr relayUrl ∨ falsyStr secret then
        (.failed .INVOICE_CREATION_FAILED "NWC URI missing required parameters", [])
      else
        match env.getInfo with
        | .error detail => (.failed .INVOICE_CREATION_FAILED detail, [.nwcGetInfo])
        | .ok info =>
          -- `nwcUrl.searchParams.get('lud16') || info.alias`
          let lightningAddress :=
            match getParam u.query "lud16" with
            | some l => if l ≠ "" then some l else info.infoAlias
            | none => info.infoAlias
          let desc := effectiveDescription description
          match lightningAddress with
          | some la =>
            if la ≠ "" ∧ strContainsChar la '@' then
              -- Lightning-Address path: `ln.fetch()` then `requestInvoice`
              match env.lnFetch with
              | .error detail =>
                (.failed .INVOICE_CREATION_FAILED detail, [.nwcGetInfo, .lnAddressFetch])
              | .ok _ =>
                match env.requestInvoice with
                | .error detail =>
                  (.failed .INVOICE_CREATION_FAILED detail,
                   [.nwcGetInfo, .lnAddressFetch, .lnRequestInvoice])
                | .ok pr =>
                  (.ok { paymentRequest := pr.1, paymentHash := pr.2,
                         amountSat, description := desc,
                         expiresAt := nowSec + expirySec },
                   [.nwcGetInfo, .lnAddressFetch, .lnRequestInvoice])
            else
              match env.makeInvoice with
              | .error detail =>
                (.failed .INVOICE_CREATION_FAILED detail, [.nwcGetInfo, .nwcMakeInvoice])
              | .ok mi =>
                (.ok { paymentRequest := mi.1, paymentHash := "0x" ++ mi.2,
                       amountSat, description := desc,
                       expiresAt := nowSec + expirySec },
                 [.nwcGetInfo, .nwcMakeInvoice])
          | none =>
            match env.makeInvoice with
            | .error detail =>
              (.failed .INVOICE_CREATION_FAILED detail, [.nwcGetInfo, .nwcMakeInvoice])
            | .ok mi =>
              (.ok { paymentRequest := mi.1, paymentHash := "0x" ++ mi.2,
                     amountSat, description := desc,
                     expiresAt := nowSec + expirySec },
               [.nwcGetInfo, .nwcMakeInvoice])

end LightningInvoice

/-! ## Concrete test vectors -/

/-- A 32-byte preimage in hex: 64 `'a'` characters. -/
def preimageA : String := String.mk (List.replicate 64 'a')

/-- A 64-character string that is NOT hexadecimal: 64 `'z'` characters. -/
def preimageZ : String := String.mk (List.replicate 64 'z')

/-- A 16-byte value in hex: 32 `'a'` characters (scenario F's preimage). -/
def preimage32 : String := String.mk (List.replicate 32 'a')

/-- A 64-hex-character payment hash: 64 `'0'` characters. -/
def hashZeros : String := String.mk (List.replicate 64 '0')

/-- A second, distinct 64-hex-character payment hash: 64 `'1'`s. -/
def hashOnes : String := String.mk (List.replicate 64 '1')

/-- A decoded invoice over 150 sat with payment hash `hashZeros` and no
expiry tag. -/
def inv150 : LightningPayment.Invoice :=
  { paymentHash := hashZeros, satoshi := some 150,
    description := none, expiryDate := none }

/-- A decoded 100-sat invoice whose expiry date is the epoch itself
(`expiryDate.getTime() = 0`). -/
def invEpochExpiry : LightningPayment.Invoice :=
  { paymentHash := hashZeros, satoshi := some 100,
    description := none, expiryDate := some 0 }

/-- A decoded 150-sat invoice that expired at `t = 900` ms. -/
def invPastExpiry : LightningPayment.Invoice :=
  { paymentHash := hashZeros, satoshi := some 150,
    description := none, expiryDate := some 900 }

/-- A `0x`-prefixed 32-byte payment hash for the HTLC ability. -/
def payHash32 : String := String.mk ('0' :: 'x' :: List.replicate 64 '0')

/-- A `0x`-prefixed 20-byte token address. -/
def tokenAddr : String := String.mk ('0' :: 'x' :: List.replicate 40 'a')

/-- A `0x`-prefixed 20-byte HTLC contract address. -/
def htlcAddr : String := String.mk ('0' :: 'x' :: List.replicate 40 'b')

/-- HTLC ability parameters whose `timelock` (500 s) is already in the
past relative to the clock value `1000` used in the runs below. -/
def staleParams : HederaHtlc.AbilityParams :=
  { paymentHash := payHash32, amount := "1000", tokenAddress := tokenAddr,
    htlcContractAddress := htlcAddr, timelock := 500,
    rpcUrl := "https://testnet.hedera.com", chainId := 296 }

/-- HTLC ability parameters with a future `timelock` (3600 s). -/
def freshParams : HederaHtlc.AbilityParams :=
  { staleParams with timelock := 3600 }

/-- A precheck environment with ample balance and allowance. -/
def richPrecheckEnv : HederaHtlc.PrecheckEnv :=
  { balanceOf := 5000, allowance := 5000, estimateGasCreate := .ok 100000 }

/-- The ledger-assigned id of `freshParams`' lock: the `HTLCCreated`
notification's `contractId`, packed by the contract with the block
timestamp `999`. -/
def ledgerAssignedId : HederaHtlc.ContractId :=
  .keccakPack "0xuser" tokenAddr 1000 payHash32 3600 999

/-- A confirmed receipt whose `HTLCCreated` event carries
`ledgerAssignedId`. -/
def confirmedReceipt : HederaHtlc.Receipt :=
  { status := 1, blockNumber := 12345, eventContractId := ledgerAssignedId }

/-- An execute environment in which every external call succeeds and the
transaction confirms. -/
def happyExecuteEnv : HederaHtlc.ExecuteEnv :=
  { nonce := .ok 1, gasPrice := .ok 10, estimateGasTx := .ok 100000,
    contractCall := .ok "0xtxhash", receipt := some confirmedReceipt }

/-- An invoice-ability environment in which every rail call succeeds. -/
def happyInvoiceEnv : LightningInvoice.ExecuteEnv :=
  { getInfo := .ok { infoAlias := none, pubkey := none },
    lnFetch := .ok (), requestInvoice := .ok ("lnbc1pr", "cafe"),
    makeInvoice := .ok ("lnbc1mi", "cafe") }

/-! ## Claims -/

/-- Claim C1. The claim states that the Settlement Step's execute verifies
`sha256(preimage) = paymentHash` before reporting success and never
succeeds when the digest differs. The code performs no digest computation
at all (only a length-64 test), so for every choice of hash function there
is a rail response with a 64-hex preimage whose digest differs from the
decoded invoice's payment hash on which execute nevertheless succeeds and
propagates that preimage. -/
theorem c1_settlement_skips_hash_verification :
    ∀ sha256 : String → String, ∃ ph : String,
      sha256 preimageA ≠ ph ∧
      LightningPayment.lightningExecute
          (some { paymentHash := ph, satoshi := some 150,
                  description := none, expiryDate := none })
          (some 60) none (.response (some preimageA)) 0 1000
        = .ok { preimage := preimageA, paymentHash := ph, amountSat := 150,
                feeSat := 0, totalSat := 150, timestamp := 1000,
                status := "SUCCEEDED" } := by
  intro sha256
  by_cases hc : sha256 preimageA = hashZeros
  · exact ⟨hashOnes, by rw [hc]; decide, by decide⟩
  · exact ⟨hashZeros, hc, by decide⟩

/-- Claim C9. `verifyPreimage` returns `true` exactly when both arguments
are 64-character hexadecimal strings, independently of any hash relation
between them: for every hash function there are 64-hex inputs with
`sha256(preimage) ≠ expectedHash` on which it still returns `true`. -/
theorem c9_verifyPreimage_is_format_check_only :
    (∀ p h, LightningPayment.verifyPreimage p h = (isHex64 p && isHex64 h))
    ∧ ∀ sha256 : String → String, ∃ p h : String,
        isHex64 p = true ∧ isHex64 h = true ∧ sha256 p ≠ h ∧
        LightningPayment.verifyPreimage p h = true := by
  constructor
  · intro p h
    unfold LightningPayment.verifyPreimage
    split
    · rename_i hlen
      rcases hlen with hp | hh
      · have hpf : isHex64 p = false := by
          simp only [isHex64, Bool.and_eq_false_iff, beq_eq_false_iff_ne]
          exact Or.inl hp
        simp [hpf]
      · have hhf : isHex64 h = false := by
          simp only [isHex64, Bool.and_eq_false_iff, beq_eq_false_iff_ne]
          exact Or.inl hh
        simp [hhf]
    · rfl
  · intro sha256
    by_cases hc : sha256 preimageA = hashZeros
    · exact ⟨preimageA, hashOnes, by decide, by decide, by rw [hc]; decide, by decide⟩
    · exact ⟨preimageA, hashZeros, by decide, by decide, hc, by decide⟩

/-- Claim C4 counterexample. A 64-character but non-hexadecimal preimage
(64 `'z'`s) is not rejected: execute propagates it in a success payload,
contradicting the claim that every preimage that is not 64 HEX characters
fails with PaymentFailed before any hash comparison. -/
theorem c4_counterexample :
    isHex64 preimageZ = false ∧
    LightningPayment.lightningExecute (some inv150) (some 60) none
        (.response (some preimageZ)) 0 1000
      = .ok { preimage := preimageZ, paymentHash := hashZeros, amountSat := 150,
              feeSat := 0, totalSat := 150, timestamp := 1000,
              status := "SUCCEEDED" } := by
  decide

/-- Claim C4 amended: the execute's preimage validation is a LENGTH check
only (`!preimage || preimage.length !== 64`): every rail response whose
preimage field is absent or not exactly 64 characters long — in particular
scenario F's 32-hex-character preimage — is rejected before any hash
handling and fails with PaymentFailed; the requirement that the characters
be hexadecimal is not enforced. -/
theorem c4_amended_length_check (inv : LightningPayment.Invoice)
    (t payDelayMs nowMs : Nat) (preimageField : Option String)
    (hrace : payDelayMs < t * 1000)
    (hbad : ∀ p, preimageField = some p → p.length ≠ 64) :
    LightningPayment.lightningExecute (some inv) (some t) none
        (.response preimageField) payDelayMs nowMs
      = .failed .PAYMENT_FAILED (.invalidPreimage preimageField)
          (some inv.paymentHash) := by
  have hnot : ¬ (t ≠ 0 ∧ t * 1000 ≤ payDelayMs) := fun hcontra => by omega
  cases preimageField with
  | none =>
    simp [LightningPayment.lightningExecute, LightningPayment.effectiveTimeoutSeconds,
      hnot]
  | some p =>
    have hlen := hbad p rfl
    simp [LightningPayment.lightningExecute, LightningPayment.effectiveTimeoutSeconds,
      hnot, hlen]

/-- Claim C4 witness: the amended statement at scenario F's input — a
32-hex-character (16-byte) preimage is rejected with PaymentFailed. -/
theorem c4_amended_witness :
    LightningPayment.lightningExecute (some inv150) (some 60) none
        (.response (some preimage32)) 0 1000
      = .failed .PAYMENT_FAILED (.invalidPreimage (some preimage32))
          (some hashZeros) :=
  c4_amended_length_check inv150 60 0 1000 (some preimage32) (by decide)
    (by intro p hp; cases hp; decide)

/-- Claim C5: for a decodable, unexpired invoice and a supplied
(schema-valid, hence positive) `expectedAmountSat`, the precheck fails with
`AMOUNT_MISMATCH` exactly when the decoded amount differs from it; when
they agree it never fails with `AMOUNT_MISMATCH` and any success payload
reports the decoded amount as `amountSat`. -/
theorem c5_expected_amount_validation (inv : LightningPayment.Invoice)
    (e nowMs : Nat) (bal : Option Nat)
    (hunexp : ∀ t, inv.expiryDate = some t → nowMs ≤ t) (hepos : 0 < e) :
    (inv.satoshi.getD 0 ≠ e →
      LightningPayment.lightningPrecheck (some inv) (some e) nowMs bal
        = .failed .AMOUNT_MISMATCH (.amountMismatch (inv.satoshi.getD 0) e))
    ∧ (inv.satoshi.getD 0 = e →
      (∀ m, LightningPayment.lightningPrecheck (some inv) (some e) nowMs bal
          ≠ .failed .AMOUNT_MISMATCH m)
      ∧ ∀ s, LightningPayment.lightningPrecheck (some inv) (some e) nowMs bal
          = .ok s → s.amountSat = e) := by
  have hexpF : ¬ (inv.expiryDate.getD 0 ≠ 0 ∧ inv.expiryDate.getD 0 < nowMs) := by
    rcases hx : inv.expiryDate with _ | t
    · simp
    · have := hunexp t hx
      simp only [Option.getD_some]
      omega
  constructor
  · intro hne
    have hmc : LightningPayment.amountMismatchCheck (some e) (inv.satoshi.getD 0)
        = true := by
      simp only [LightningPayment.amountMismatchCheck, Bool.and_eq_true, bne_iff_ne]
      exact ⟨by omega, hne⟩
    simp [LightningPayment.lightningPrecheck, hexpF, hmc]
  · intro heq
    have hmc : LightningPayment.amountMismatchCheck (some e) (inv.satoshi.getD 0)
        = false := by
      simp [LightningPayment.amountMismatchCheck, heq]
    have h0 : inv.satoshi.getD 0 ≠ 0 := by omega
    constructor
    · intro m
      rcases bal with _ | b
      · simp [LightningPayment.lightningPrecheck, hexpF, hmc, h0]
      · by_cases hb : b < inv.satoshi.getD 0
        · simp [LightningPayment.lightningPrecheck, hexpF, hmc, h0, hb]
        · simp [LightningPayment.lightningPrecheck, hexpF, hmc, h0, hb]
    · intro s hs
      rcases bal with _ | b
      · have hev : LightningPayment.lightningPrecheck (some inv) (some e) nowMs none
            = .ok { invoiceValid := true, paymentHash := inv.paymentHash,
                    amountSat := inv.satoshi.getD 0, destination := "unknown",
                    description := inv.description.getD "",
                    expiresAt := inv.expiryDate.getD 0,
                    availableLiquidity := none,
                    estimatedFee := some ((inv.satoshi.getD 0 + 999) / 1000) } := by
          simp [LightningPayment.lightningPrecheck, hexpF, hmc, h0]
        rw [hev] at hs
        injection hs with h
        subst h
        exact heq
      · by_cases hb : b < inv.satoshi.getD 0
        · have hev : LightningPayment.lightningPrecheck (some inv) (some e) nowMs (some b)
              = .failed .INSUFFICIENT_LIQUIDITY
                  (.insufficientLiquidity (inv.satoshi.getD 0) b) := by
            simp [LightningPayment.lightningPrecheck, hexpF, hmc, h0, hb]
          rw [hev] at hs
          exact absurd hs (by simp)
        · have hev : LightningPayment.lightningPrecheck (some inv) (some e) nowMs (some b)
              = .ok { invoiceValid := true, paymentHash := inv.paymentHash,
                      amountSat := inv.satoshi.getD 0, destination := "unknown",
                      description := inv.description.getD "",
                      expiresAt := inv.expiryDate.getD 0,
                      availableLiquidity := some b,
                      estimatedFee := some ((inv.satoshi.getD 0 + 999) / 1000) } := by
            simp [LightningPayment.lightningPrecheck, hexpF, hmc, h0, hb]
          rw [hev] at hs
          injection hs with h
          subst h
          exact heq

/-- Claim C5 witness: scenario B — a 150-sat invoice with
`expectedAmountSat = 200` fails with `AMOUNT_MISMATCH`. -/
theorem c5_witness :
    LightningPayment.lightningPrecheck (some inv150) (some 200) 1000 none
      = .failed .AMOUNT_MISMATCH (.amountMismatch 150 200) :=
  (c5_expected_amount_validation inv150 200 1000 none (fun t h => nomatch h)
    (by decide)).1 (by decide)

/-- Claim C6 counterexample. A decodable invoice whose `expiresAt` is `0`
(the epoch — in the past at call time 1000) is NOT failed with
`INVOICE_EXPIRED`: the source's truthiness guard `if (expiresAt &&
expiresAt < now)` skips the check and the precheck succeeds, reporting
`expiresAt = 0`. -/
theorem c6_counterexample :
    invEpochExpiry.expiryDate.getD 0 < 1000 ∧
    LightningPayment.lightningPrecheck (some invEpochExpiry) none 1000 none
      = .ok { invoiceValid := true, paymentHash := hashZeros, amountSat := 100,
              destination := "unknown", description := "", expiresAt := 0,
              availableLiquidity := none, estimatedFee := some 1 } := by
  decide

/-- Claim C6 amended: for every decodable invoice whose `expiresAt` is
NONZERO and lies in the past at the time of the call, the precheck fails
with `INVOICE_EXPIRED` (the zero value, standing for a missing expiry
date, is exempted by the truthiness guard). -/
theorem c6_amended_expiry_check (inv : LightningPayment.Invoice)
    (t nowMs : Nat) (e? bal : Option Nat)
    (hx : inv.expiryDate = some t) (ht : t ≠ 0) (hpast : t < nowMs) :
    LightningPayment.lightningPrecheck (some inv) e? nowMs bal
      = .failed .INVOICE_EXPIRED (.invoiceExpiredAt t) := by
  simp [LightningPayment.lightningPrecheck, hx, ht, hpast]

/-- Claim C6 witness: an invoice that expired at 900 ms, checked at
1000 ms, fails with `INVOICE_EXPIRED`. -/
theorem c6_amended_witness :
    LightningPayment.lightningPrecheck (some invPastExpiry) none 1000 none
      = .failed .INVOICE_EXPIRED (.invoiceExpiredAt 900) :=
  c6_amended_expiry_check invPastExpiry 900 1000 none none rfl (by decide) (by decide)

/-- Claim C7 counterexample. With `timeoutSeconds` NOT supplied, the zod
default of 60 applies and the payment is raced against a 60-second timer:
a pay operation that would settle after 70 000 ms is cut off and the step
fails with PaymentFailed (timeout) — it does not wait indefinitely as the
claim states. -/
theorem c7_counterexample :
    LightningPayment.effectiveTimeoutSeconds none = 60 ∧
    LightningPayment.lightningExecute (some inv150) none none
        (.response (some preimageA)) 70000 2000
      = .failed .PAYMENT_FAILED .paymentTimeout (some hashZeros) := by
  decide

/-- Claim C7 amended: an unsupplied `timeoutSeconds` defaults to 60 (zod
`.default(60)`), so the payment always races a timer; whenever the
(supplied or defaulted, schema-positive) timer elapses before the pay
operation settles, the step fails with PaymentFailed carrying a timeout
indication. -/
theorem c7_amended_default_timeout (inv : LightningPayment.Invoice)
    (supplied : Option Nat) (pe : LightningPayment.PayEvent)
    (payDelayMs nowMs : Nat)
    (ht0 : LightningPayment.effectiveTimeoutSeconds supplied ≠ 0)
    (helapsed : LightningPayment.effectiveTimeoutSeconds supplied * 1000 ≤ payDelayMs) :
    LightningPayment.effectiveTimeoutSeconds none = 60 ∧
    LightningPayment.lightningExecute (some inv) supplied none pe payDelayMs nowMs
      = .failed .PAYMENT_FAILED .paymentTimeout (some inv.paymentHash) := by
  refine ⟨rfl, ?_⟩
  simp only [LightningPayment.lightningExecute]
  rw [if_pos ⟨ht0, helapsed⟩]
  simp

/-- Claim C7 witness: a supplied 5-second timeout with a pay operation
settling at 5000 ms fails with the timeout indication. -/
theorem c7_amended_witness :
    LightningPayment.effectiveTimeoutSeconds none = 60 ∧
    LightningPayment.lightningExecute (some inv150) (some 5) none
        (.response (some preimageA)) 5000 2000
      = .failed .PAYMENT_FAILED .paymentTimeout (some hashZeros) :=
  c7_amended_default_timeout inv150 (some 5) (.response (some preimageA)) 5000 2000
    (by decide) (by decide)

/-- Claim C2 counterexample. With `timelock = 500` already in the past
(clock reading 1000), the Lock Step's execute neither fails with
`INVALID_TIMELOCK` nor avoids the state-changing ledger call: it submits
`createHTLCToken` and reports success. -/
theorem c2_counterexample :
    staleParams.timelock ≤ 1000 ∧
    (HederaHtlc.htlcExecute staleParams "0xuser" 1000 happyExecuteEnv).1
      = .ok { contractId := .keccakPack "0xuser" tokenAddr 1000 payHash32 500 1000,
              txHash := "0xtxhash", paymentHash := payHash32, amount := "1000",
              timelock := 500, blockNumber := 12345 } ∧
    HederaHtlc.LedgerCall.createHTLCToken
      ∈ (HederaHtlc.htlcExecute staleParams "0xuser" 1000 happyExecuteEnv).2 := by
  decide

/-- Claim C2 amended: the `timelock ≤ now` rejection is implemented only in
the precheck. For every parameter set with a supported chain id, a
well-formed 32-byte payment hash and `timelock ≤ now`, the precheck fails
with `INVALID_TIMELOCK` without performing any ledger call; the execute
operation performs no timelock validation — when its external calls
succeed and the receipt confirms, it invokes the state-changing
`createHTLCToken` call and reports success for the same stale timelock. -/
theorem c2_amended_timelock_check_precheck_only (p : HederaHtlc.AbilityParams)
    (nowSec : Nat) (envP : HederaHtlc.PrecheckEnv) (envE : HederaHtlc.ExecuteEnv)
    (userAddress txHash : String) (r : HederaHtlc.Receipt)
    (amountWei n g gas : Nat)
    (hchain : (HederaHtlc.getHederaNetwork p.chainId).isSome = true)
    (hhash : HederaHtlc.isBytes32Hex p.paymentHash = true)
    (htl : p.timelock ≤ nowSec)
    (haddr : HederaHtlc.isAddressHex p.tokenAddress = true)
    (hamt : HederaHtlc.decNat? p.amount = some amountWei)
    (hn : envE.nonce = .ok n) (hg : envE.gasPrice = .ok g)
    (hgas : envE.estimateGasTx = .ok gas)
    (hcall : envE.contractCall = .ok txHash)
    (hrec : envE.receipt = some r) (hst : r.status ≠ 0) :
    HederaHtlc.htlcPrecheck p nowSec envP
      = (.failed .INVALID_TIMELOCK (.invalidTimelock p.timelock nowSec), [])
    ∧ (HederaHtlc.htlcExecute p userAddress nowSec envE).1
      = .ok { contractId := .keccakPack userAddress p.tokenAddress amountWei
                p.paymentHash p.timelock nowSec,
              txHash, paymentHash := p.paymentHash, amount := p.amount,
              timelock := p.timelock, blockNumber := r.blockNumber }
    ∧ HederaHtlc.LedgerCall.createHTLCToken
        ∈ (HederaHtlc.htlcExecute p userAddress nowSec envE).2 := by
  obtain ⟨net, hnet⟩ := Option.isSome_iff_exists.mp hchain
  refine ⟨?_, ?_, ?_⟩
  · simp [HederaHtlc.htlcPrecheck, hnet, hhash, htl]
  · simp [HederaHtlc.htlcExecute, hamt, hhash, haddr, hn, hg, hgas, hcall, hrec, hst]
  · simp [HederaHtlc.htlcExecute, hamt, hhash, haddr, hn, hg, hgas, hcall, hrec, hst]

/-- Claim C2 witness: the amended statement at scenario C's shape — a
stale timelock (500 s against clock 1000 s) fails the precheck with
`INVALID_TIMELOCK` and an empty ledger-call trace. -/
theorem c2_amended_witness :
    HederaHtlc.htlcPrecheck staleParams 1000 richPrecheckEnv
      = (.failed .INVALID_TIMELOCK (.invalidTimelock 500 1000), []) :=
  (c2_amended_timelock_check_precheck_only staleParams 1000 richPrecheckEnv
    happyExecuteEnv "0xuser" "0xtxhash" confirmedReceipt 1000 1 10 100000
    (by decide) (by decide) (by decide) (by decide) (by decide)
    rfl rfl rfl rfl rfl (by decide)).1

/-- Claim C3 (the claim is the intended behaviour; the code computes the
id locally instead of extracting it from the event). In a successful run
whose confirmed receipt's lock-created notification carries the
ledger-assigned `contractId` (packed by the contract with block timestamp
999) while the local clock reads 555, execute succeeds yet returns a
`contractId` different from the one the ledger assigned — nothing is ever
read out of the receipt's logs. -/
theorem c3_contract_id_not_from_event :
    (HederaHtlc.htlcExecute freshParams "0xuser" 555 happyExecuteEnv).1
      = .ok { contractId := .keccakPack "0xuser" tokenAddr 1000 payHash32 3600 555,
              txHash := "0xtxhash", paymentHash := payHash32, amount := "1000",
              timelock := 3600, blockNumber := 12345 } ∧
    HederaHtlc.ContractId.keccakPack "0xuser" tokenAddr 1000 payHash32 3600 555
      ≠ confirmedReceipt.eventContractId := by
  decide

/-- Claim C8 counterexample. A scheme-correct descriptor missing both the
`relay` and `secret` parameters passes the Invoice Commitment precheck
(which only tests the scheme), and the execute rejects it — but with
reason `INVOICE_CREATION_FAILED` (its catch-all), which the claim
explicitly rules out; a wrong-scheme descriptor is likewise mapped to
`INVOICE_CREATION_FAILED` by the execute. -/
theorem c8_counterexample :
    LightningInvoice.invoicePrecheck 1000 "nostr+walletconnect://pk" 3600
      = (.ok { amountSat := 1000, estimatedFee := some 0, canReceive := true }, [])
    ∧ (LightningInvoice.invoiceExecute 1000 none 3600 "nostr+walletconnect://pk" 0
        happyInvoiceEnv).1
      = .failed .INVOICE_CREATION_FAILED "NWC URI missing required parameters"
    ∧ (LightningInvoice.invoiceExecute 1000 none 3600 "https://invalid-uri.com" 0
        happyInvoiceEnv).1
      = .failed .INVOICE_CREATION_FAILED "Invalid NWC URI protocol" := by
  decide

/-- Claim C8 amended: the precheck rejects only a wrong URI scheme, with
`NWC_CONNECTION_FAILED`, and never examines the relay/secret parameters;
the execute rejects every malformed descriptor (unparsable URI, wrong
scheme, or missing pubkey/relay/secret) before contacting the rail, but
always with reason `INVOICE_CREATION_FAILED` from its catch-all handler. -/
theorem c8_amended_error_reasons (a e : Int) (u v : String) (d : Option String)
    (nowSec : Int) (env : LightningInvoice.ExecuteEnv)
    (ha : 0 < a)
    (hu : strStarts "nostr+walletconnect://" u = false)
    (hv : LightningInvoice.malformedNwcUri v) :
    LightningInvoice.invoicePrecheck a u e
      = (.failed .NWC_CONNECTION_FAILED
          "Invalid NWC URI format. Must start with nostr+walletconnect://", [])
    ∧ ∃ msg, LightningInvoice.invoiceExecute a d e v nowSec env
        = (.failed .INVOICE_CREATION_FAILED msg, []) := by
  constructor
  · have ha2 : ¬ (a ≤ 0) := by omega
    simp [LightningInvoice.invoicePrecheck, ha2, hu]
  · unfold LightningInvoice.malformedNwcUri at hv
    rcases hp : LightningInvoice.parseUrl v with _ | pu
    · refine ⟨"Invalid URL", ?_⟩
      simp [LightningInvoice.invoiceExecute, hp]
    · rw [hp] at hv
      by_cases hprot : pu.protocol = "nostr+walletconnect:"
      · have hmiss : LightningInvoice.walletPubkeyOf pu = "" ∨
            LightningInvoice.falsyStr (LightningInvoice.getParam pu.query "relay") ∨
            LightningInvoice.falsyStr (LightningInvoice.getParam pu.query "secret") := by
          rcases hv with h | h
          · exact absurd hprot h
          · exact h
        refine ⟨"NWC URI missing required parameters", ?_⟩
        simp only [LightningInvoice.invoiceExecute, hp]
        rw [if_neg (not_not_intro hprot), if_pos hmiss]
      · refine ⟨"Invalid NWC URI protocol", ?_⟩
        simp only [LightningInvoice.invoiceExecute, hp]
        rw [if_pos hprot]

/-- Claim C8 witness: the amended statement at concrete descriptors — a
wrong-scheme URI fails the precheck with `NWC_CONNECTION_FAILED`. -/
theorem c8_amended_witness :
    LightningInvoice.invoicePrecheck 1000 "https://invalid-uri.com" 3600
      = (.failed .NWC_CONNECTION_FAILED
          "Invalid NWC URI format. Must start with nostr+walletconnect://", []) :=
  (c8_amended_error_reasons 1000 3600 "https://invalid-uri.com"
    "nostr+walletconnect://pk" none 0 happyInvoiceEnv
    (by decide) (by decide) (by decide)).1

/-- Claim C10: for every parameter set with a positive amount, a
`nostr+walletconnect://` URI and an expiry of at least 60 seconds, the
Invoice Commitment precheck succeeds with exactly
`\x7b amountSat, canReceive := true, estimatedFee := 0 \x7d` and performs
no external call (empty call trace); the model's precheck takes no
environment input at all, so two runs on the same parameters are
definitionally identical — it is deterministic. -/
theorem c10_invoice_precheck_pure (a : Int) (u : String) (e : Int)
    (ha : 0 < a) (hu : strStarts "nostr+walletconnect://" u = true)
    (he : 60 ≤ e) :
    LightningInvoice.invoicePrecheck a u e
      = (.ok { amountSat := a, canReceive := true, estimatedFee := some 0 }, []) := by
  have h1 : ¬ (a ≤ 0) := by omega
  have h3 : ¬ (e < 60) := by omega
  simp [LightningInvoice.invoicePrecheck, h1, hu, h3]

/-- Claim C10 witness: the unit test's valid parameters succeed with the
exact `\x7b 1000, true, 0 \x7d` payload and an empty call trace. -/
theorem c10_witness :
    LightningInvoice.invoicePrecheck 1000
        "nostr+walletconnect://pubkey?relay=wss://relay.test.com&secret=sec" 3600
      = (.ok { amountSat := 1000, canReceive := true, estimatedFee := some 0 }, []) :=
  c10_invoice_precheck_pure 1000
    "nostr+walletconnect://pubkey?relay=wss://relay.test.com&secret=sec" 3600
    (by decide) (by decide) (by decide)

end HLV
